import Mathlib

/-!
Verification of the metrics-aggregation and day-rollover core of
muckypaws/FlightControl (src/FlightControl.py), as a shallow embedding.

Modelling conventions:
* Python machine integers and `len` results are embedded as `Int`/`Nat`;
  Python floats that the claims touch (room temperatures, humidity) are
  embedded as `ℚ`.
* A feed aircraft record (one element of `data['aircraft']`) is an
  association list of field name to JSON value (`AircraftRec`); the source
  re-serialises each record with `json.dumps(i, sort_keys=True)` and then
  performs Python substring tests (`'seen' in data`) on that string, so the
  embedding includes a faithful `dumps` and substring test.
* Statements that can raise in Python (`parsed['seen']` on a missing key,
  `numSec < 60` on a string, `.strip()` on a number) are embedded with an
  explicit error type `PyErr`; an error aborts the per-record loop with the
  partial state retained, exactly as an uncaught exception would leave the
  module-level dictionaries.
* The mutable module state (FLIGHT_METRICS, ICAO_FLIGHT_DICTIONARY,
  DIRTY_DATA_FLAG and the append-only stats file) is one record `SysState`;
  `getDateNow()` results are passed in as explicit `now` arguments.
-/

/-- A JSON value as found inside one aircraft record of the feed: the feed
fields used by the program are strings (`hex`, `flight`, `squawk`) and
numbers (`seen`, `seen_pos`). -/
inductive JVal where
  | s (v : String)
  | n (v : Int)
deriving DecidableEq, Repr

/-- One aircraft record of the feed: a mapping from field name to value
(model of one element of `data['aircraft']`). -/
abbrev AircraftRec := List (String × JVal)

/-- Python `sub in hay` on strings: substring containment. -/
def strContainsSub (hay sub : String) : Bool :=
  hay.toList.tails.any (fun t => sub.toList.isPrefixOf t)

/-- Python `str.strip()`: remove leading and trailing whitespace. -/
def pstrip (s : String) : String :=
  String.mk (((s.toList.dropWhile Char.isWhitespace).reverse.dropWhile
    Char.isWhitespace).reverse)

/-- Code-point lexicographic comparison on strings, as Python `sorted` uses
for `sort_keys=True`. -/
def strLe (a b : List Char) : Bool :=
  match a, b with
  | [], _ => true
  | _ :: _, [] => false
  | x :: xs, y :: ys => if x = y then strLe xs ys else decide (x.val < y.val)

/-- Insertion into a key-sorted association list. -/
def insertByKey (p : String × JVal) : List (String × JVal) → List (String × JVal)
  | [] => [p]
  | q :: t => if strLe p.1.toList q.1.toList then p :: q :: t else q :: insertByKey p t

/-- Sort an association list by key (model of `sort_keys=True`). -/
def sortByKey : List (String × JVal) → List (String × JVal)
  | [] => []
  | p :: t => insertByKey p (sortByKey t)

/-- Serialisation of one JSON value as `json.dumps` renders it. -/
def dumpJV : JVal → String
  | .s v => "\x22" ++ v ++ "\x22"
  | .n k => toString k

/-- Model of `json.dumps(i, sort_keys=True)` for one aircraft record:
keys sorted, default separators. -/
def dumps (r : AircraftRec) : String :=
  "\x7b" ++
    String.intercalate ", "
      ((sortByKey r).map (fun p => "\x22" ++ p.1 ++ "\x22" ++ ": " ++ dumpJV p.2)) ++
  "\x7d"

/-- Python dict lookup `parsed[k]` as an `Option` (a `none` models the raise
of `KeyError`). -/
def pyGet (r : AircraftRec) (k : String) : Option JVal :=
  (r.find? (fun p => p.1 == k)).map Prod.snd

/-- The Python exceptions the per-record loop of `parseFlightData` can
raise. -/
inductive PyErr where
  | keyError (k : String)
  | typeError
  | attrError
deriving DecidableEq, Repr

/-- The list `SPECIAL_SQUAWK_CODES` from the source. -/
def SPECIAL_SQUAWK_CODES : List String := ["7700", "7600", "7500"]

/-- The module-level mutable state: the FLIGHT_METRICS dictionary fields,
ICAO_FLIGHT_DICTIONARY, DIRTY_DATA_FLAG and the lines appended so far to the
stats file (PATH_INTERNAL_STATS_FILE). -/
structure SysState where
  flightCount : Int
  flightWithName : Int
  flightInvalid : Int
  flightSeen : Int
  flightSeenPos : Int
  flightMax : Int
  flightMaxPos : Int
  flightMaxAllTime : Int
  flightMaxPosAllTime : Int
  flightDailyTotal : Int
  flightBestDayTotal : Int
  flightBestDayDate : String
  lowestRoomHumidity : ℚ
  highestRoomHumidity : ℚ
  todaysDate : String
  max24 : Int
  pirSensorLastTrigger : String
  lowestRoomTemp : ℚ
  highestRoomTemp : ℚ
  ICAO_FLIGHT_DICTIONARY : List String
  DIRTY_DATA_FLAG : Bool
  statsLog : List String
deriving DecidableEq

/-- State after `defaultValues()` on first run (no persisted data), with
`getDateNow()` equal to `d`.  Humidity extrema keep the literal initialisers
of FLIGHT_METRICS since `defaultValues` does not assign them. -/
def initState (d : String) : SysState where
  flightCount := 0
  flightWithName := 0
  flightInvalid := 0
  flightSeen := 0
  flightSeenPos := 0
  flightMax := 0
  flightMaxPos := 0
  flightMaxAllTime := 0
  flightMaxPosAllTime := 0
  flightDailyTotal := 0
  flightBestDayTotal := 0
  flightBestDayDate := d
  lowestRoomHumidity := 999
  highestRoomHumidity := -1
  todaysDate := d
  max24 := 0
  pirSensorLastTrigger := d
  lowestRoomTemp := 999
  highestRoomTemp := -27315/100
  ICAO_FLIGHT_DICTIONARY := [d]
  DIRTY_DATA_FLAG := false
  statsLog := []

/-- Model of `clearFlightMetrics()`: reset the per-tick counters. -/
def clearFlightMetrics (s : SysState) : SysState :=
  { s with flightCount := 0, flightWithName := 0, flightSeen := 0,
           flightSeenPos := 0, flightInvalid := 0 }

/-- Model of Python `'{:.2f}'.format(x)`: round to the nearest hundredth and
render with exactly two digits after the point (exact for inputs that are
whole hundredths, which covers every value the program stores). -/
def fmt2 (q : ℚ) : String :=
  let c : Int := Int.floor (q * 100 + 1/2)
  let sign := if c < 0 then "-" else ""
  let a := c.natAbs
  sign ++ toString (a / 100) ++ "." ++
    (if a % 100 < 10 then "0" else "") ++ toString (a % 100)

/-- The `statString` built by `checkDailyCutover` before the daily reset:
the archived line for the outgoing day, in the source's field order. -/
def archiveLine (s : SysState) : String :=
  s.todaysDate ++ ", " ++
  toString s.flightDailyTotal ++ ", " ++
  toString s.flightBestDayTotal ++ ", " ++
  s.flightBestDayDate ++ ", " ++
  toString s.flightMaxPos ++ ", " ++
  toString s.flightMax ++ ", " ++
  toString s.flightMaxPosAllTime ++ ", " ++
  toString s.flightMaxAllTime ++ ", " ++
  fmt2 s.lowestRoomTemp ++ ", " ++
  fmt2 s.highestRoomTemp ++ "\n"

/-- Model of `clearFlightMetricsDailyCutover()` with `getDateNow() = now`: reset the
per-tick and per-day metrics and re-date the emptied ledger. -/
def clearFlightMetricsDailyCutover (now : String) (s : SysState) : SysState :=
  let s := clearFlightMetrics s
  { s with flightMax := 0, flightMaxPos := 0, flightDailyTotal := 0,
           lowestRoomTemp := 1000, highestRoomTemp := -27315/100,
           todaysDate := now, flightBestDayTotal := 0,
           ICAO_FLIGHT_DICTIONARY := [now] }

/-- Model of `checkDailyCutover()` with `getDateNow() = now`: on a date change,
archive the outgoing day's line, reset the daily metrics, set the dirty
flag; otherwise do nothing. -/
def checkDailyCutover (now : String) (s : SysState) : SysState :=
  if now = s.todaysDate then s
  else
    let line := archiveLine s
    let s := clearFlightMetricsDailyCutover now s
    { s with DIRTY_DATA_FLAG := true, statsLog := s.statsLog ++ [line] }

/-- The `'seen' in data` block of the per-record loop: recently-seen count
and the guarded ledger append (`'hex' in data` is tested on the serialised
record, membership is tested on the unstripped value but the stripped value
is appended). -/
def phaseSeen (r : AircraftRec) (s : SysState) : SysState × Option PyErr :=
  if strContainsSub (dumps r) "seen" then
    match pyGet r "seen" with
    | none => (s, some (.keyError "seen"))
    | some (.s _) => (s, some .typeError)
    | some (.n k) =>
      let s := if k < 60 then { s with flightSeen := s.flightSeen + 1 } else s
      if strContainsSub (dumps r) "hex" then
        match pyGet r "hex" with
        | none => (s, some (.keyError "hex"))
        | some (.n _) => (s, some .attrError)
        | some (.s h) =>
          if h ∈ s.ICAO_FLIGHT_DICTIONARY then (s, none)
          else ({ s with
                  ICAO_FLIGHT_DICTIONARY := s.ICAO_FLIGHT_DICTIONARY ++ [pstrip h] },
                none)
      else (s, none)
  else (s, none)

/-- The `'seen_pos' in data` block of the per-record loop. -/
def phaseSeenPos (r : AircraftRec) (s : SysState) : SysState × Option PyErr :=
  if strContainsSub (dumps r) "seen_pos" then
    match pyGet r "seen_pos" with
    | none => (s, some (.keyError "seen_pos"))
    | some (.s _) => (s, some .typeError)
    | some (.n k) =>
      (if k < 60 then { s with flightSeenPos := s.flightSeenPos + 1 } else s, none)
  else (s, none)

/-- The `'flight' in data` block: named versus invalid count. -/
def phaseFlight (r : AircraftRec) (s : SysState) : SysState :=
  if strContainsSub (dumps r) "flight" then
    { s with flightWithName := s.flightWithName + 1 }
  else
    { s with flightInvalid := s.flightInvalid + 1 }

/-- The inner `for emergency in SPECIAL_SQUAWK_CODES` loop: the alert
strings appended to `SpecialFlights` for one record. -/
def squawkLoop (r : AircraftRec) : List String → Except PyErr (List String)
  | [] => .ok []
  | em :: rest =>
    match pyGet r "squawk" with
    | none => .error (.keyError "squawk")
    | some v =>
      if v = JVal.s em then
        let fieldRes : Except PyErr String :=
          if strContainsSub (dumps r) "flight" then
            match pyGet r "flight" with
            | none => .error (.keyError "flight")
            | some (.n _) => .error .attrError
            | some (.s f) => .ok (pstrip f)
          else
            match pyGet r "hex" with
            | none => .error (.keyError "hex")
            | some (.n _) => .error .attrError
            | some (.s h) => .ok (pstrip h)
        match fieldRes with
        | .error e => .error e
        | .ok f =>
          match squawkLoop r rest with
          | .error e => .error e
          | .ok tailAdds => .ok ((pstrip em ++ ": " ++ f) :: tailAdds)
      else squawkLoop r rest

/-- The `'squawk' in data` block of the per-record loop. -/
def phaseSquawk (r : AircraftRec) : Except PyErr (List String) :=
  if strContainsSub (dumps r) "squawk" then squawkLoop r SPECIAL_SQUAWK_CODES
  else .ok []

/-- One iteration of `for i in data['aircraft']`: the updated state, the
alert strings appended, and the exception raised (if any) with the state as
it is at the moment of the raise. -/
def procRec (r : AircraftRec) (s : SysState) : SysState × List String × Option PyErr :=
  let s0 := { s with flightCount := s.flightCount + 1 }
  match phaseSeen r s0 with
  | (s1, some e) => (s1, [], some e)
  | (s1, none) =>
    match phaseSeenPos r s1 with
    | (s2, some e) => (s2, [], some e)
    | (s2, none) =>
      let s3 := phaseFlight r s2
      match phaseSquawk r with
      | .error e => (s3, [], some e)
      | .ok adds => (s3, adds, none)

/-- The whole per-record loop over the fetched aircraft list, stopping at
the first raised exception with the partial state retained. -/
def procList : List AircraftRec → SysState → List String →
    SysState × List String × Option PyErr
  | [], s, sp => (s, sp, none)
  | r :: t, s, sp =>
    match procRec r s with
    | (s1, adds, none) => procList t s1 (sp ++ adds)
    | (s1, _, some e) => (s1, sp, some e)

/-- Source line `if FLIGHT_METRICS['flightMaxPos'] < FLIGHT_METRICS['flightSeenPos']`:
raise the daily seen-position maximum. -/
def updMaxPos (s : SysState) : SysState :=
  if s.flightMaxPos < s.flightSeenPos then
    { s with flightMaxPos := s.flightSeenPos, DIRTY_DATA_FLAG := true }
  else s

/-- Source line `if FLIGHT_METRICS['flightMax'] < FLIGHT_METRICS['flightSeen']`:
raise the daily seen maximum. -/
def updMax (s : SysState) : SysState :=
  if s.flightMax < s.flightSeen then
    { s with flightMax := s.flightSeen, DIRTY_DATA_FLAG := true }
  else s

/-- Source line `if FLIGHT_METRICS['flightMax'] > FLIGHT_METRICS['flightMaxAllTime']`:
raise the all-time seen maximum. -/
def updMaxAllTime (s : SysState) : SysState :=
  if s.flightMaxAllTime < s.flightMax then
    { s with flightMaxAllTime := s.flightMax, DIRTY_DATA_FLAG := true }
  else s

/-- Source line `if FLIGHT_METRICS['flightMaxPos'] > FLIGHT_METRICS['flightMaxPosAllTime']`:
raise the all-time seen-position maximum. -/
def updMaxPosAllTime (s : SysState) : SysState :=
  if s.flightMaxPosAllTime < s.flightMaxPos then
    { s with flightMaxPosAllTime := s.flightMaxPos, DIRTY_DATA_FLAG := true }
  else s

/-- Source line `FLIGHT_METRICS['flightDailyTotal'] = len(ICAO_FLIGHT_DICTIONARY)`:
the daily total is the full ledger length, date slot included. -/
def updDaily (s : SysState) : SysState :=
  { s with flightDailyTotal := (s.ICAO_FLIGHT_DICTIONARY.length : Int) }

/-- Source line `if FLIGHT_METRICS['flightBestDayTotal'] < FLIGHT_METRICS['flightDailyTotal']`:
raise the best-day total and its date (with `getDateNow() = now`). -/
def updBestDay (now : String) (s : SysState) : SysState :=
  if s.flightBestDayTotal < s.flightDailyTotal then
    { s with flightBestDayTotal := s.flightDailyTotal, flightBestDayDate := now }
  else s

/-- The tail of `parseFlightData` after the loop: raise the daily and
all-time maxima, set the daily total from the ledger length, raise the
best-day total, in the source's order. -/
def finalize (now : String) (s : SysState) : SysState :=
  updBestDay now (updDaily (updMaxPosAllTime (updMaxAllTime (updMax (updMaxPos s)))))

/-- The body of `parseFlightData` after a successful fetch: clear the
per-tick counters, clear `SpecialFlights`, run the loop, and on success run
the maxima updates; an exception leaves the loop's partial state and no
return value. -/
def aggBody (now : String) (recs : List AircraftRec) (s : SysState) :
    SysState × Except PyErr (List String) :=
  let s0 := clearFlightMetrics s
  match procList recs s0 [] with
  | (s1, sp, none) => (finalize now s1, .ok sp)
  | (s1, _, some e) => (s1, .error e)

/-- Model of `parseFlightData()` with `getDateNow() = now`.  `fetch = none` models a
failed `urllib` fetch (the `except` branch returns `[""]` with the state
untouched after the cutover check); `fetch = some recs` models a successful
fetch of the given aircraft list. -/
def parseFlightData (now : String) (fetch : Option (List AircraftRec))
    (s : SysState) : SysState × Except PyErr (List String) :=
  let s1 := checkDailyCutover now s
  match fetch with
  | none => (s1, .ok [""])
  | some recs => aggBody now recs s1

/-- One tick event: a standalone rollover check, or the aggregation body of
one tick (a full `parseFlightData` call is the composition of the two, see
`parseFlightData_as_events`). -/
inductive Ev where
  | cutover (now : String)
  | agg (now : String) (fetch : Option (List AircraftRec))

/-- Apply one event to the state. -/
def stepEv : Ev → SysState → SysState
  | .cutover now, s => checkDailyCutover now s
  | .agg _ none, s => s
  | .agg now (some recs), s => (aggBody now recs s).1

/-- Run a sequence of events. -/
def runEv : List Ev → SysState → SysState
  | [], s => s
  | e :: t, s => runEv t (stepEv e s)

/-- An event is a rollover exactly when it is a cutover check whose current
date differs from the stored date. -/
def isRollover : Ev → SysState → Bool
  | .cutover now, s => now != s.todaysDate
  | .agg _ _, _ => false

/-- The seen/seen-position maxima invariant of the claim: both daily maxima
are non-negative and bounded by their all-time maxima. -/
def MaxInv (s : SysState) : Prop :=
  0 ≤ s.flightMax ∧ s.flightMax ≤ s.flightMaxAllTime ∧
  0 ≤ s.flightMaxPos ∧ s.flightMaxPos ≤ s.flightMaxPosAllTime

/-- A record whose `hex` value (when present and a string) is already
stripped of surrounding whitespace. -/
def goodRec (r : AircraftRec) : Bool :=
  match pyGet r "hex" with
  | some (.s h) => pstrip h == h
  | _ => true

/-- An event whose feed records are all `goodRec`. -/
def goodEv : Ev → Bool
  | .cutover _ => true
  | .agg _ none => true
  | .agg _ (some recs) => recs.all goodRec

/-- The emergency-display condition of `loop()` and
`showEmergencyAircraft`: both test only `len(...) > 0` of the list returned
by `parseFlightData`. -/
def emergencyBranchTaken (l : List String) : Bool :=
  decide (0 < l.length)

/-- Sanity link between the event model and the source: a full
`parseFlightData` tick is the cutover event followed by the aggregation
event. -/
theorem parseFlightData_as_events (now : String) (fetch : Option (List AircraftRec))
    (s : SysState) :
    (parseFlightData now fetch s).1 = stepEv (.agg now fetch) (stepEv (.cutover now) s) := by
  cases fetch <;> rfl

/-! ### Persistence model for `loadData` (metrics file and ledger file) -/

/-- A value stored in the persisted FLIGHT_METRICS JSON object: string,
integer or float (embedded as `ℚ`). -/
inductive PVal where
  | s (v : String)
  | i (v : Int)
  | q (v : ℚ)
deriving DecidableEq, Repr

/-- Python dict assignment `d[k] = v` on an association list with unique
keys: replace in place when the key exists, append otherwise. -/
def dictSet : List (String × PVal) → String → PVal → List (String × PVal)
  | [], k, v => [(k, v)]
  | p :: t, k, v => if p.1 = k then (k, v) :: t else p :: dictSet t k v

/-- Python dict lookup `d[k]` as an `Option`. -/
def dictGet : List (String × PVal) → String → Option PVal
  | [], _ => none
  | p :: t, k => if p.1 = k then some p.2 else dictGet t k

/-- The FLIGHT_METRICS dictionary as left by `defaultValues()` with
`getDateNow() = now`: the literal initialisers for the humidity extrema
(which `defaultValues` does not assign) and the assigned defaults for the
rest. -/
def defaultMetricsDict (now : String) : List (String × PVal) :=
  [("flightCount", .i 0), ("flightWithName", .i 0), ("flightInvalid", .i 0),
   ("flightSeen", .i 0), ("flightSeenPos", .i 0), ("flightMax", .i 0),
   ("flightMaxPos", .i 0), ("flightMaxAllTime", .i 0), ("flightMaxPosAllTime", .i 0),
   ("flightDailyTotal", .i 0), ("flightBestDayTotal", .i 0),
   ("flightBestDayDate", .s now),
   ("lowestRoomHumidity", .i 999), ("highestRoomHumidity", .i (-1)),
   ("todaysDate", .s now), ("max24", .i 0), ("pirSensorLastTrigger", .s now),
   ("lowestRoomTemp", .i 999), ("highestRoomTemp", .q (-27315/100))]

/-- Second half of `loadData`: load the persisted ICAO ledger file if
present and decodable, discarding it unless its leading date equals today;
a decode failure resets the ledger. -/
def loadICAOPart (now : String) (d : List (String × PVal))
    (ifile : Option (Except Unit (List String))) :
    List (String × PVal) × List String :=
  match ifile with
  | none => (d, [now])
  | some (.error _) => (d, [now])
  | some (.ok l) =>
    if l = [] then (d, [])
    else if l.head? = some now then (d, l) else (d, [now])

/-- Model of `loadData()` with `getDateNow() = now`.  `mfile`/`ifile` are
the persisted metrics and ledger files: `none` when the file is absent,
`some (.error ())` when present but undecodable (the `ValueError` branch),
`some (.ok _)` when decodable.  An undecodable metrics file leaves the
defaults in place (the `except ValueError` handler only resets the ledger);
a decodable one is copied key by key onto the defaults. -/
def loadData (now : String) (mfile : Option (Except Unit (List (String × PVal))))
    (ifile : Option (Except Unit (List String))) :
    List (String × PVal) × List String :=
  match mfile with
  | some (.error _) => (defaultMetricsDict now, [now])
  | none => loadICAOPart now (defaultMetricsDict now) ifile
  | some (.ok kvs) =>
    loadICAOPart now
      (kvs.foldl (fun d p => dictSet d p.1 p.2) (defaultMetricsDict now)) ifile

/-! ### Helper lemmas: dictionary operations -/

theorem dictGet_dictSet_self (d : List (String × PVal)) (k : String) (v : PVal) :
    dictGet (dictSet d k v) k = some v := by
  induction d with
  | nil => simp [dictSet, dictGet]
  | cons p t ih =>
    by_cases h : p.1 = k
    · simp [dictSet, dictGet, h]
    · simp [dictSet, dictGet, h, ih]

theorem dictGet_dictSet_other (d : List (String × PVal)) (k1 k : String) (v : PVal)
    (h : k1 ≠ k) : dictGet (dictSet d k1 v) k = dictGet d k := by
  induction d with
  | nil => simp [dictSet, dictGet, h]
  | cons p t ih =>
    by_cases hp : p.1 = k1
    · simp [dictSet, dictGet, hp, h]
    · simp only [dictSet, hp, if_false]
      by_cases hk : p.1 = k
      · simp [dictGet, hk]
      · simp [dictGet, hk, ih]

theorem dictGet_foldl_absent (kvs : List (String × PVal)) (d : List (String × PVal))
    (k : String) (h : ∀ p ∈ kvs, p.1 ≠ k) :
    dictGet (kvs.foldl (fun d p => dictSet d p.1 p.2) d) k = dictGet d k := by
  induction kvs generalizing d with
  | nil => rfl
  | cons p t ih =>
    simp only [List.foldl_cons]
    rw [ih _ (fun q hq => h q (List.mem_cons_of_mem p hq)),
        dictGet_dictSet_other _ _ _ _ (h p (List.mem_cons_self p t))]

theorem loadICAOPart_fst (now : String) (d : List (String × PVal))
    (ifile : Option (Except Unit (List String))) : (loadICAOPart now d ifile).1 = d := by
  unfold loadICAOPart
  rcases ifile with _ | e
  · rfl
  · rcases e with e | l
    · rfl
    · repeat' split
      all_goals rfl

/-! ### Helper lemmas: frame properties of the per-record loop -/

/-- The four maxima fields are untouched by `phaseSeen`. -/
theorem phaseSeen_frame (r : AircraftRec) (s : SysState) :
    ((phaseSeen r s).1).flightMax = s.flightMax ∧
    ((phaseSeen r s).1).flightMaxPos = s.flightMaxPos ∧
    ((phaseSeen r s).1).flightMaxAllTime = s.flightMaxAllTime ∧
    ((phaseSeen r s).1).flightMaxPosAllTime = s.flightMaxPosAllTime := by
  simp only [phaseSeen]
  repeat' split
  all_goals exact ⟨rfl, rfl, rfl, rfl⟩

/-- `phaseSeenPos` changes at most the recently-positioned counter. -/
theorem phaseSeenPos_frame (r : AircraftRec) (s : SysState) :
    ((phaseSeenPos r s).1).flightMax = s.flightMax ∧
    ((phaseSeenPos r s).1).flightMaxPos = s.flightMaxPos ∧
    ((phaseSeenPos r s).1).flightMaxAllTime = s.flightMaxAllTime ∧
    ((phaseSeenPos r s).1).flightMaxPosAllTime = s.flightMaxPosAllTime ∧
    ((phaseSeenPos r s).1).ICAO_FLIGHT_DICTIONARY = s.ICAO_FLIGHT_DICTIONARY := by
  simp only [phaseSeenPos]
  repeat' split
  all_goals exact ⟨rfl, rfl, rfl, rfl, rfl⟩

/-- `phaseFlight` changes at most the named/invalid counters. -/
theorem phaseFlight_frame (r : AircraftRec) (s : SysState) :
    (phaseFlight r s).flightMax = s.flightMax ∧
    (phaseFlight r s).flightMaxPos = s.flightMaxPos ∧
    (phaseFlight r s).flightMaxAllTime = s.flightMaxAllTime ∧
    (phaseFlight r s).flightMaxPosAllTime = s.flightMaxPosAllTime ∧
    (phaseFlight r s).ICAO_FLIGHT_DICTIONARY = s.ICAO_FLIGHT_DICTIONARY := by
  unfold phaseFlight
  split <;> exact ⟨rfl, rfl, rfl, rfl, rfl⟩

/-- One loop iteration never touches the maxima fields. -/
theorem procRec_frame (r : AircraftRec) (s : SysState) :
    ((procRec r s).1).flightMax = s.flightMax ∧
    ((procRec r s).1).flightMaxPos = s.flightMaxPos ∧
    ((procRec r s).1).flightMaxAllTime = s.flightMaxAllTime ∧
    ((procRec r s).1).flightMaxPosAllTime = s.flightMaxPosAllTime := by
  unfold procRec
  rcases h1 : phaseSeen r { s with flightCount := s.flightCount + 1 } with ⟨s1, e1⟩
  have f := phaseSeen_frame r { s with flightCount := s.flightCount + 1 }
  rw [h1] at f
  obtain ⟨f1, f2, f3, f4⟩ := f
  cases e1 with
  | some e => simp_all
  | none =>
    rcases h2 : phaseSeenPos r s1 with ⟨s2, e2⟩
    have g := phaseSeenPos_frame r s1
    rw [h2] at g
    obtain ⟨g1, g2, g3, g4, -⟩ := g
    cases e2 with
    | some e => simp_all
    | none =>
      have k := phaseFlight_frame r s2
      obtain ⟨k1, k2, k3, k4, -⟩ := k
      rcases h3 : phaseSquawk r with e | adds <;> simp_all

/-- The whole loop never touches the maxima fields. -/
theorem procList_frame (recs : List AircraftRec) (s : SysState) (sp : List String) :
    ((procList recs s sp).1).flightMax = s.flightMax ∧
    ((procList recs s sp).1).flightMaxPos = s.flightMaxPos ∧
    ((procList recs s sp).1).flightMaxAllTime = s.flightMaxAllTime ∧
    ((procList recs s sp).1).flightMaxPosAllTime = s.flightMaxPosAllTime := by
  induction recs generalizing s sp with
  | nil => exact ⟨rfl, rfl, rfl, rfl⟩
  | cons r t ih =>
    unfold procList
    rcases hp : procRec r s with ⟨s1, adds, e⟩
    have f := procRec_frame r s
    rw [hp] at f
    obtain ⟨f1, f2, f3, f4⟩ := f
    cases e with
    | some e => simp_all
    | none =>
      obtain ⟨g1, g2, g3, g4⟩ := ih s1 (sp ++ adds)
      simp only []
      exact ⟨g1.trans f1, g2.trans f2, g3.trans f3, g4.trans f4⟩

/-! ### Helper lemmas: ledger evolution -/

/-- With a whitespace-free identifier, `phaseSeen` keeps the ledger
duplicate-free: the guarded append only adds an absent identifier. -/
theorem phaseSeen_ledger_nodup (r : AircraftRec) (s : SysState)
    (hg : goodRec r = true) (hn : s.ICAO_FLIGHT_DICTIONARY.Nodup) :
    ((phaseSeen r s).1).ICAO_FLIGHT_DICTIONARY.Nodup := by
  simp only [phaseSeen]
  repeat' split
  all_goals try exact hn
  all_goals
    simp only [goodRec] at hg
    split at hg <;> simp_all [List.nodup_append]

/-- A sighting whose unstripped identifier is already in the ledger leaves
the ledger unchanged. -/
theorem phaseSeen_ledger_mem (r : AircraftRec) (s : SysState) (h : String)
    (hh : pyGet r "hex" = some (JVal.s h)) (hm : h ∈ s.ICAO_FLIGHT_DICTIONARY) :
    ((phaseSeen r s).1).ICAO_FLIGHT_DICTIONARY = s.ICAO_FLIGHT_DICTIONARY := by
  simp only [phaseSeen]
  repeat' split
  all_goals try rfl
  all_goals simp_all

/-- `procRec` keeps the ledger duplicate-free for a whitespace-free
identifier. -/
theorem procRec_ledger_nodup (r : AircraftRec) (s : SysState)
    (hg : goodRec r = true) (hn : s.ICAO_FLIGHT_DICTIONARY.Nodup) :
    ((procRec r s).1).ICAO_FLIGHT_DICTIONARY.Nodup := by
  simp only [procRec]
  rcases h1 : phaseSeen r { s with flightCount := s.flightCount + 1 } with ⟨s1, e1⟩
  have f := phaseSeen_ledger_nodup r { s with flightCount := s.flightCount + 1 } hg hn
  rw [h1] at f
  cases e1 with
  | some e => simp_all
  | none =>
    rcases h2 : phaseSeenPos r s1 with ⟨s2, e2⟩
    have g := phaseSeenPos_frame r s1
    rw [h2] at g
    obtain ⟨-, -, -, -, g5⟩ := g
    cases e2 with
    | some e => simp_all
    | none =>
      obtain ⟨-, -, -, -, k5⟩ := phaseFlight_frame r s2
      rcases h3 : phaseSquawk r with e | adds <;> simp_all

/-- A sighting whose unstripped identifier is already in the ledger leaves
the ledger of the whole iteration unchanged. -/
theorem procRec_ledger_mem (r : AircraftRec) (s : SysState) (h : String)
    (hh : pyGet r "hex" = some (JVal.s h)) (hm : h ∈ s.ICAO_FLIGHT_DICTIONARY) :
    ((procRec r s).1).ICAO_FLIGHT_DICTIONARY = s.ICAO_FLIGHT_DICTIONARY := by
  simp only [procRec]
  rcases h1 : phaseSeen r { s with flightCount := s.flightCount + 1 } with ⟨s1, e1⟩
  have f := phaseSeen_ledger_mem r { s with flightCount := s.flightCount + 1 } h hh hm
  rw [h1] at f
  cases e1 with
  | some e => simp_all
  | none =>
    rcases h2 : phaseSeenPos r s1 with ⟨s2, e2⟩
    have g := phaseSeenPos_frame r s1
    rw [h2] at g
    obtain ⟨-, -, -, -, g5⟩ := g
    cases e2 with
    | some e => simp_all
    | none =>
      obtain ⟨-, -, -, -, k5⟩ := phaseFlight_frame r s2
      rcases h3 : phaseSquawk r with e | adds <;> simp_all

/-- The whole loop keeps the ledger duplicate-free when every record's
identifier is whitespace-free. -/
theorem procList_ledger_nodup (recs : List AircraftRec) (s : SysState) (sp : List String)
    (hg : ∀ r ∈ recs, goodRec r = true) (hn : s.ICAO_FLIGHT_DICTIONARY.Nodup) :
    ((procList recs s sp).1).ICAO_FLIGHT_DICTIONARY.Nodup := by
  induction recs generalizing s sp with
  | nil => exact hn
  | cons r t ih =>
    unfold procList
    rcases hp : procRec r s with ⟨s1, adds, e⟩
    have f := procRec_ledger_nodup r s (hg r (List.mem_cons_self r t)) hn
    rw [hp] at f
    cases e with
    | some e => exact f
    | none => exact ih s1 (sp ++ adds) (fun q hq => hg q (List.mem_cons_of_mem r hq)) f

/-! ### Helper lemmas: the post-loop maxima updates -/

/-- Effect of `updMaxPos` on the fields the claims track. -/
theorem updMaxPos_spec (s : SysState) :
    (updMaxPos s).flightMax = s.flightMax ∧
    s.flightMaxPos ≤ (updMaxPos s).flightMaxPos ∧
    (updMaxPos s).flightMaxAllTime = s.flightMaxAllTime ∧
    (updMaxPos s).flightMaxPosAllTime = s.flightMaxPosAllTime ∧
    (updMaxPos s).ICAO_FLIGHT_DICTIONARY = s.ICAO_FLIGHT_DICTIONARY ∧
    (updMaxPos s).todaysDate = s.todaysDate ∧
    (updMaxPos s).flightDailyTotal = s.flightDailyTotal := by
  unfold updMaxPos
  split <;> refine ⟨?_, ?_, ?_, ?_, ?_, ?_, ?_⟩ <;> (try simp) <;> omega

/-- Effect of `updMax` on the fields the claims track. -/
theorem updMax_spec (s : SysState) :
    s.flightMax ≤ (updMax s).flightMax ∧
    (updMax s).flightMaxPos = s.flightMaxPos ∧
    (updMax s).flightMaxAllTime = s.flightMaxAllTime ∧
    (updMax s).flightMaxPosAllTime = s.flightMaxPosAllTime ∧
    (updMax s).ICAO_FLIGHT_DICTIONARY = s.ICAO_FLIGHT_DICTIONARY ∧
    (updMax s).todaysDate = s.todaysDate ∧
    (updMax s).flightDailyTotal = s.flightDailyTotal := by
  unfold updMax
  split <;> refine ⟨?_, ?_, ?_, ?_, ?_, ?_, ?_⟩ <;> (try simp) <;> omega

/-- Effect of `updMaxAllTime`: it also establishes the daily-below-all-time
bound for the seen maximum. -/
theorem updMaxAllTime_spec (s : SysState) :
    (updMaxAllTime s).flightMax = s.flightMax ∧
    (updMaxAllTime s).flightMaxPos = s.flightMaxPos ∧
    s.flightMaxAllTime ≤ (updMaxAllTime s).flightMaxAllTime ∧
    (updMaxAllTime s).flightMaxPosAllTime = s.flightMaxPosAllTime ∧
    (updMaxAllTime s).ICAO_FLIGHT_DICTIONARY = s.ICAO_FLIGHT_DICTIONARY ∧
    (updMaxAllTime s).todaysDate = s.todaysDate ∧
    (updMaxAllTime s).flightDailyTotal = s.flightDailyTotal ∧
    (updMaxAllTime s).flightMax ≤ (updMaxAllTime s).flightMaxAllTime := by
  unfold updMaxAllTime
  split <;> refine ⟨?_, ?_, ?_, ?_, ?_, ?_, ?_, ?_⟩ <;> (try simp) <;> omega

/-- Effect of `updMaxPosAllTime`: it also establishes the
daily-below-all-time bound for the seen-position maximum. -/
theorem updMaxPosAllTime_spec (s : SysState) :
    (updMaxPosAllTime s).flightMax = s.flightMax ∧
    (updMaxPosAllTime s).flightMaxPos = s.flightMaxPos ∧
    (updMaxPosAllTime s).flightMaxAllTime = s.flightMaxAllTime ∧
    s.flightMaxPosAllTime ≤ (updMaxPosAllTime s).flightMaxPosAllTime ∧
    (updMaxPosAllTime s).ICAO_FLIGHT_DICTIONARY = s.ICAO_FLIGHT_DICTIONARY ∧
    (updMaxPosAllTime s).todaysDate = s.todaysDate ∧
    (updMaxPosAllTime s).flightDailyTotal = s.flightDailyTotal ∧
    (updMaxPosAllTime s).flightMaxPos ≤ (updMaxPosAllTime s).flightMaxPosAllTime := by
  unfold updMaxPosAllTime
  split <;> refine ⟨?_, ?_, ?_, ?_, ?_, ?_, ?_, ?_⟩ <;> (try simp) <;> omega

/-- Effect of `updDaily` on the fields the claims track. -/
theorem updDaily_spec (s : SysState) :
    (updDaily s).flightMax = s.flightMax ∧
    (updDaily s).flightMaxPos = s.flightMaxPos ∧
    (updDaily s).flightMaxAllTime = s.flightMaxAllTime ∧
    (updDaily s).flightMaxPosAllTime = s.flightMaxPosAllTime ∧
    (updDaily s).ICAO_FLIGHT_DICTIONARY = s.ICAO_FLIGHT_DICTIONARY ∧
    (updDaily s).todaysDate = s.todaysDate ∧
    (updDaily s).flightDailyTotal = ((updDaily s).ICAO_FLIGHT_DICTIONARY.length : Int) :=
  ⟨rfl, rfl, rfl, rfl, rfl, rfl, rfl⟩

/-- Effect of `updBestDay` on the fields the claims track. -/
theorem updBestDay_spec (now : String) (s : SysState) :
    (updBestDay now s).flightMax = s.flightMax ∧
    (updBestDay now s).flightMaxPos = s.flightMaxPos ∧
    (updBestDay now s).flightMaxAllTime = s.flightMaxAllTime ∧
    (updBestDay now s).flightMaxPosAllTime = s.flightMaxPosAllTime ∧
    (updBestDay now s).ICAO_FLIGHT_DICTIONARY = s.ICAO_FLIGHT_DICTIONARY ∧
    (updBestDay now s).todaysDate = s.todaysDate ∧
    (updBestDay now s).flightDailyTotal = s.flightDailyTotal := by
  unfold updBestDay
  split <;> exact ⟨rfl, rfl, rfl, rfl, rfl, rfl, rfl⟩

/-- `finalize` leaves the ledger and the stored date unchanged. -/
theorem finalize_frame (now : String) (s : SysState) :
    (finalize now s).ICAO_FLIGHT_DICTIONARY = s.ICAO_FLIGHT_DICTIONARY ∧
    (finalize now s).todaysDate = s.todaysDate := by
  obtain ⟨-, -, -, -, a5, a6, -⟩ := updMaxPos_spec s
  obtain ⟨-, -, -, -, b5, b6, -⟩ := updMax_spec (updMaxPos s)
  obtain ⟨-, -, -, -, c5, c6, -, -⟩ := updMaxAllTime_spec (updMax (updMaxPos s))
  obtain ⟨-, -, -, -, d5, d6, -, -⟩ :=
    updMaxPosAllTime_spec (updMaxAllTime (updMax (updMaxPos s)))
  obtain ⟨-, -, -, -, e5, e6, -⟩ :=
    updDaily_spec (updMaxPosAllTime (updMaxAllTime (updMax (updMaxPos s))))
  obtain ⟨-, -, -, -, f5, f6, -⟩ :=
    updBestDay_spec now (updDaily (updMaxPosAllTime (updMaxAllTime (updMax (updMaxPos s)))))
  unfold finalize
  exact ⟨f5.trans (e5.trans (d5.trans (c5.trans (b5.trans a5)))),
         f6.trans (e6.trans (d6.trans (c6.trans (b6.trans a6))))⟩

/-- `finalize` only ever raises the four maxima fields. -/
theorem finalize_mono (now : String) (s : SysState) :
    s.flightMax ≤ (finalize now s).flightMax ∧
    s.flightMaxPos ≤ (finalize now s).flightMaxPos ∧
    s.flightMaxAllTime ≤ (finalize now s).flightMaxAllTime ∧
    s.flightMaxPosAllTime ≤ (finalize now s).flightMaxPosAllTime := by
  obtain ⟨a1, a2, a3, a4, -, -, -⟩ := updMaxPos_spec s
  obtain ⟨b1, b2, b3, b4, -, -, -⟩ := updMax_spec (updMaxPos s)
  obtain ⟨c1, c2, c3, c4, -, -, -, -⟩ := updMaxAllTime_spec (updMax (updMaxPos s))
  obtain ⟨d1, d2, d3, d4, -, -, -, -⟩ :=
    updMaxPosAllTime_spec (updMaxAllTime (updMax (updMaxPos s)))
  obtain ⟨e1, e2, e3, e4, -, -, -⟩ :=
    updDaily_spec (updMaxPosAllTime (updMaxAllTime (updMax (updMaxPos s))))
  obtain ⟨f1, f2, f3, f4, -, -, -⟩ :=
    updBestDay_spec now (updDaily (updMaxPosAllTime (updMaxAllTime (updMax (updMaxPos s)))))
  unfold finalize
  refine ⟨?_, ?_, ?_, ?_⟩ <;> omega

/-- After `finalize` the daily maxima are bounded by the all-time maxima,
and non-negativity of the daily maxima is preserved. -/
theorem finalize_le (now : String) (s : SysState) :
    ((finalize now s).flightMax ≤ (finalize now s).flightMaxAllTime ∧
     (finalize now s).flightMaxPos ≤ (finalize now s).flightMaxPosAllTime) ∧
    (0 ≤ s.flightMax → 0 ≤ (finalize now s).flightMax) ∧
    (0 ≤ s.flightMaxPos → 0 ≤ (finalize now s).flightMaxPos) := by
  obtain ⟨m1, m2, m3, m4⟩ := finalize_mono now s
  obtain ⟨c1, c2, c3, c4, -, -, -, c8⟩ := updMaxAllTime_spec (updMax (updMaxPos s))
  obtain ⟨d1, d2, d3, d4, -, -, -, d8⟩ :=
    updMaxPosAllTime_spec (updMaxAllTime (updMax (updMaxPos s)))
  obtain ⟨e1, e2, e3, e4, -, -, -⟩ :=
    updDaily_spec (updMaxPosAllTime (updMaxAllTime (updMax (updMaxPos s))))
  obtain ⟨f1, f2, f3, f4, -, -, -⟩ :=
    updBestDay_spec now (updDaily (updMaxPosAllTime (updMaxAllTime (updMax (updMaxPos s)))))
  unfold finalize at *
  refine ⟨⟨?_, ?_⟩, ?_, ?_⟩ <;> omega

/-- After `finalize` the daily total equals the full ledger length. -/
theorem finalize_daily (now : String) (s : SysState) :
    (finalize now s).flightDailyTotal =
      ((finalize now s).ICAO_FLIGHT_DICTIONARY.length : Int) := by
  obtain ⟨-, -, -, -, e5, -, e7⟩ :=
    updDaily_spec (updMaxPosAllTime (updMaxAllTime (updMax (updMaxPos s))))
  obtain ⟨-, -, -, -, f5, -, f7⟩ :=
    updBestDay_spec now (updDaily (updMaxPosAllTime (updMaxAllTime (updMax (updMaxPos s)))))
  unfold finalize
  rw [f7, e7, f5]

/-! ### Helper lemmas: the cutover check and whole-tick state evolution -/

/-- A cutover check on the stored date is a no-op. -/
theorem checkDailyCutover_same (now : String) (s : SysState) (h : now = s.todaysDate) :
    checkDailyCutover now s = s := by
  simp [checkDailyCutover, h]

/-- Field-by-field effect of a cutover check on a date change. -/
theorem checkDailyCutover_roll (now : String) (s : SysState) (h : ¬ now = s.todaysDate) :
    (checkDailyCutover now s).flightMax = 0 ∧
    (checkDailyCutover now s).flightMaxPos = 0 ∧
    (checkDailyCutover now s).flightMaxAllTime = s.flightMaxAllTime ∧
    (checkDailyCutover now s).flightMaxPosAllTime = s.flightMaxPosAllTime ∧
    (checkDailyCutover now s).todaysDate = now ∧
    (checkDailyCutover now s).ICAO_FLIGHT_DICTIONARY = [now] ∧
    (checkDailyCutover now s).flightDailyTotal = 0 ∧
    (checkDailyCutover now s).flightBestDayTotal = 0 ∧
    (checkDailyCutover now s).lowestRoomTemp = 1000 ∧
    (checkDailyCutover now s).highestRoomTemp = -27315/100 ∧
    (checkDailyCutover now s).DIRTY_DATA_FLAG = true ∧
    (checkDailyCutover now s).statsLog = s.statsLog ++ [archiveLine s] := by
  simp [checkDailyCutover, clearFlightMetricsDailyCutover, clearFlightMetrics, h]

/-- On any fetch outcome the aggregation body only raises the maxima. -/
theorem aggBody_mono (now : String) (recs : List AircraftRec) (s : SysState) :
    s.flightMax ≤ ((aggBody now recs s).1).flightMax ∧
    s.flightMaxPos ≤ ((aggBody now recs s).1).flightMaxPos ∧
    s.flightMaxAllTime ≤ ((aggBody now recs s).1).flightMaxAllTime ∧
    s.flightMaxPosAllTime ≤ ((aggBody now recs s).1).flightMaxPosAllTime := by
  simp only [aggBody]
  rcases hp : procList recs (clearFlightMetrics s) [] with ⟨s1, sp, e⟩
  have f := procList_frame recs (clearFlightMetrics s) []
  rw [hp] at f
  obtain ⟨f1, f2, f3, f4⟩ := f
  simp only [clearFlightMetrics] at f1 f2 f3 f4
  cases e with
  | some e => refine ⟨?_, ?_, ?_, ?_⟩ <;> simp_all
  | none =>
    obtain ⟨m1, m2, m3, m4⟩ := finalize_mono now s1
    refine ⟨?_, ?_, ?_, ?_⟩ <;> simp_all <;> omega

/-- The aggregation body preserves the maxima invariant. -/
theorem aggBody_maxinv (now : String) (recs : List AircraftRec) (s : SysState)
    (h : MaxInv s) : MaxInv ((aggBody now recs s).1) := by
  unfold MaxInv at *
  simp only [aggBody]
  rcases hp : procList recs (clearFlightMetrics s) [] with ⟨s1, sp, e⟩
  have f := procList_frame recs (clearFlightMetrics s) []
  rw [hp] at f
  obtain ⟨f1, f2, f3, f4⟩ := f
  simp only [clearFlightMetrics] at f1 f2 f3 f4
  cases e with
  | some e => refine ⟨?_, ?_, ?_, ?_⟩ <;> simp_all
  | none =>
    obtain ⟨⟨l1, l2⟩, nn1, nn2⟩ := finalize_le now s1
    obtain ⟨m1, m2, m3, m4⟩ := finalize_mono now s1
    have g1 : (0:Int) ≤ s1.flightMax := by simp_all
    have g2 : (0:Int) ≤ s1.flightMaxPos := by simp_all
    exact ⟨nn1 g1, l1, nn2 g2, l2⟩

/-- The aggregation body keeps the ledger duplicate-free when every
record's identifier is whitespace-free. -/
theorem aggBody_nodup (now : String) (recs : List AircraftRec) (s : SysState)
    (hg : ∀ r ∈ recs, goodRec r = true) (hn : s.ICAO_FLIGHT_DICTIONARY.Nodup) :
    ((aggBody now recs s).1).ICAO_FLIGHT_DICTIONARY.Nodup := by
  simp only [aggBody]
  rcases hp : procList recs (clearFlightMetrics s) [] with ⟨s1, sp, e⟩
  have f := procList_ledger_nodup recs (clearFlightMetrics s) [] hg hn
  rw [hp] at f
  cases e with
  | some e => exact f
  | none =>
    show (finalize now s1).ICAO_FLIGHT_DICTIONARY.Nodup
    obtain ⟨ff, -⟩ := finalize_frame now s1
    rw [ff]
    exact f

/-- One event preserves the maxima invariant. -/
theorem stepEv_maxinv (e : Ev) (t : SysState) (h : MaxInv t) : MaxInv (stepEv e t) := by
  cases e with
  | cutover now =>
    by_cases hd : now = t.todaysDate
    · show MaxInv (checkDailyCutover now t)
      rw [checkDailyCutover_same now t hd]; exact h
    · obtain ⟨r1, r2, r3, r4, -⟩ := checkDailyCutover_roll now t hd
      show MaxInv (checkDailyCutover now t)
      unfold MaxInv at *
      refine ⟨?_, ?_, ?_, ?_⟩ <;> omega
  | agg now fetch =>
    cases fetch with
    | none => exact h
    | some recs => exact aggBody_maxinv now recs t h

/-- A rollover event zeroes the daily maxima and keeps the all-time maxima. -/
theorem stepEv_rollover (e : Ev) (t : SysState) (h : isRollover e t = true) :
    (stepEv e t).flightMax = 0 ∧ (stepEv e t).flightMaxPos = 0 ∧
    (stepEv e t).flightMaxAllTime = t.flightMaxAllTime ∧
    (stepEv e t).flightMaxPosAllTime = t.flightMaxPosAllTime := by
  cases e with
  | agg now fetch => simp [isRollover] at h
  | cutover now =>
    simp only [isRollover, bne_iff_ne, ne_eq] at h
    obtain ⟨r1, r2, r3, r4, -⟩ := checkDailyCutover_roll now t h
    exact ⟨r1, r2, r3, r4⟩

/-- A non-rollover event never lowers any of the four maxima. -/
theorem stepEv_mono (e : Ev) (t : SysState) (h : isRollover e t = false) :
    t.flightMax ≤ (stepEv e t).flightMax ∧
    t.flightMaxPos ≤ (stepEv e t).flightMaxPos ∧
    t.flightMaxAllTime ≤ (stepEv e t).flightMaxAllTime ∧
    t.flightMaxPosAllTime ≤ (stepEv e t).flightMaxPosAllTime := by
  cases e with
  | cutover now =>
    simp only [isRollover, bne_eq_false_iff_eq] at h
    show _ ∧ _ ∧ _ ∧ _
    rw [show stepEv (Ev.cutover now) t = checkDailyCutover now t from rfl,
        checkDailyCutover_same now t h]
    exact ⟨le_refl _, le_refl _, le_refl _, le_refl _⟩
  | agg now fetch =>
    cases fetch with
    | none => exact ⟨le_refl _, le_refl _, le_refl _, le_refl _⟩
    | some recs => exact aggBody_mono now recs t

/-- The maxima invariant holds along every run. -/
theorem runEv_maxinv (evs : List Ev) (s : SysState) (h : MaxInv s) :
    MaxInv (runEv evs s) := by
  induction evs generalizing s with
  | nil => exact h
  | cons e t ih => exact ih (stepEv e s) (stepEv_maxinv e s h)

/-- One good event keeps the ledger duplicate-free. -/
theorem stepEv_nodup (e : Ev) (t : SysState) (hg : goodEv e = true)
    (hn : t.ICAO_FLIGHT_DICTIONARY.Nodup) :
    (stepEv e t).ICAO_FLIGHT_DICTIONARY.Nodup := by
  cases e with
  | cutover now =>
    by_cases hd : now = t.todaysDate
    · show (checkDailyCutover now t).ICAO_FLIGHT_DICTIONARY.Nodup
      rw [checkDailyCutover_same now t hd]; exact hn
    · obtain ⟨-, -, -, -, -, r6, -⟩ := checkDailyCutover_roll now t hd
      show (checkDailyCutover now t).ICAO_FLIGHT_DICTIONARY.Nodup
      rw [r6]; exact List.nodup_singleton now
  | agg now fetch =>
    cases fetch with
    | none => exact hn
    | some recs =>
      simp only [goodEv, List.all_eq_true] at hg
      exact aggBody_nodup now recs t hg hn

/-- The ledger stays duplicate-free along every run of good events. -/
theorem runEv_nodup (evs : List Ev) (s : SysState) (hg : ∀ e ∈ evs, goodEv e = true)
    (hn : s.ICAO_FLIGHT_DICTIONARY.Nodup) :
    (runEv evs s).ICAO_FLIGHT_DICTIONARY.Nodup := by
  induction evs generalizing s with
  | nil => exact hn
  | cons e t ih =>
    exact ih (stepEv e s) (fun q hq => hg q (List.mem_cons_of_mem e hq))
      (stepEv_nodup e s (hg e (List.mem_cons_self e t)) hn)

/-- A record with no matching special squawk code contributes no alert. -/
theorem procRec_no_adds (r : AircraftRec) (s : SysState)
    (h : phaseSquawk r = Except.ok []) : (procRec r s).2.1 = [] := by
  simp only [procRec]
  repeat' split <;> simp_all

/-- If no record contributes an alert, the loop returns the accumulator. -/
theorem procList_no_adds (recs : List AircraftRec) (s : SysState) (sp : List String)
    (h : ∀ r ∈ recs, phaseSquawk r = Except.ok []) : (procList recs s sp).2.1 = sp := by
  induction recs generalizing s sp with
  | nil => rfl
  | cons r t ih =>
    unfold procList
    rcases hp : procRec r s with ⟨s1, adds, e⟩
    have f := procRec_no_adds r s (h r (List.mem_cons_self r t))
    rw [hp] at f
    simp only [] at f
    cases e with
    | some e => rfl
    | none =>
      simpa [f] using ih s1 sp (fun q hq => h q (List.mem_cons_of_mem r hq))

/-! ### Spec-order definitions used to settle refinement-style claims -/

/-- Archive line in the field order the claim states (daily max before
daily max-position, all-time max before all-time max-position).  Compare
`archiveLine`, the order `checkDailyCutover` actually writes. -/
def claimedArchiveLine (s : SysState) : String :=
  s.todaysDate ++ ", " ++ toString s.flightDailyTotal ++ ", " ++
  toString s.flightBestDayTotal ++ ", " ++ s.flightBestDayDate ++ ", " ++
  toString s.flightMax ++ ", " ++ toString s.flightMaxPos ++ ", " ++
  toString s.flightMaxAllTime ++ ", " ++ toString s.flightMaxPosAllTime ++ ", " ++
  fmt2 s.lowestRoomTemp ++ ", " ++ fmt2 s.highestRoomTemp ++ "\n"

/-! ### Claim theorems -/

/-- C1: starting from the default state, after every sequence of rollover
checks and aggregation events the daily maxima satisfy
`0 ≤ flightMax ≤ flightMaxAllTime` and `0 ≤ flightMaxPos ≤
flightMaxPosAllTime`; a rollover event zeroes both daily maxima and leaves
both all-time maxima unchanged, and every non-rollover event is
non-decreasing in all four maxima. -/
theorem C1_maxima_invariant (d : String) (evs : List Ev) (e : Ev) (t : SysState) :
    MaxInv (runEv evs (initState d)) ∧
    (isRollover e t = true →
      (stepEv e t).flightMax = 0 ∧ (stepEv e t).flightMaxPos = 0 ∧
      (stepEv e t).flightMaxAllTime = t.flightMaxAllTime ∧
      (stepEv e t).flightMaxPosAllTime = t.flightMaxPosAllTime) ∧
    (isRollover e t = false →
      t.flightMax ≤ (stepEv e t).flightMax ∧
      t.flightMaxPos ≤ (stepEv e t).flightMaxPos ∧
      t.flightMaxAllTime ≤ (stepEv e t).flightMaxAllTime ∧
      t.flightMaxPosAllTime ≤ (stepEv e t).flightMaxPosAllTime) :=
  ⟨runEv_maxinv evs (initState d) ⟨le_refl 0, le_refl 0, le_refl 0, le_refl 0⟩,
   fun h => stepEv_rollover e t h,
   fun h => stepEv_mono e t h⟩

/-- Witness for C1 at concrete inputs: the invariant after one aggregation
tick from the default state, and the rollover dichotomy at a
date-changing cutover event. -/
theorem C1_maxima_invariant_witness :
    MaxInv (runEv [Ev.agg "d" (some [[("hex", JVal.s "A"), ("seen", JVal.n 10)]])]
        (initState "d")) ∧
    ((stepEv (Ev.cutover "e") (initState "d")).flightMax = 0 ∧
     (stepEv (Ev.cutover "e") (initState "d")).flightMaxPos = 0 ∧
     (stepEv (Ev.cutover "e") (initState "d")).flightMaxAllTime
        = (initState "d").flightMaxAllTime ∧
     (stepEv (Ev.cutover "e") (initState "d")).flightMaxPosAllTime
        = (initState "d").flightMaxPosAllTime) :=
  ⟨(C1_maxima_invariant "d" [Ev.agg "d" (some [[("hex", JVal.s "A"), ("seen", JVal.n 10)]])]
      (Ev.cutover "e") (initState "d")).1,
   (C1_maxima_invariant "d" [] (Ev.cutover "e") (initState "d")).2.1 (by decide)⟩

/-- C2 (amended): provided every observed identifier equals its
whitespace-stripped form, the ledger never contains a duplicate identifier
along any run from the default state, and a sighting whose identifier is
already in the ledger leaves the ledger unchanged.  (As literally stated
the claim fails: the source tests membership of the unstripped identifier
but appends the stripped one, see `C2_ledger_duplicate_counterexample`.) -/
theorem C2_ledger_uniqueness_amended (d : String) (evs : List Ev)
    (hg : ∀ e ∈ evs, goodEv e = true) :
    ((runEv evs (initState d)).ICAO_FLIGHT_DICTIONARY).Nodup ∧
    ∀ (r : AircraftRec) (t : SysState) (h : String),
      pyGet r "hex" = some (JVal.s h) → h ∈ t.ICAO_FLIGHT_DICTIONARY →
      ((procRec r t).1).ICAO_FLIGHT_DICTIONARY = t.ICAO_FLIGHT_DICTIONARY :=
  ⟨runEv_nodup evs (initState d) hg (List.nodup_singleton d),
   fun r t h hh hm => procRec_ledger_mem r t h hh hm⟩

/-- Counterexample to C2 as stated: the identifier `" A"` (with leading
whitespace) sighted on two ticks of the same day is appended twice, so the
ledger holds a duplicate. -/
theorem C2_ledger_duplicate_counterexample :
    ¬ ((runEv [Ev.agg "d" (some [[("hex", JVal.s " A"), ("seen", JVal.n 10)]]),
               Ev.agg "d" (some [[("hex", JVal.s " A"), ("seen", JVal.n 10)]])]
          (initState "d")).ICAO_FLIGHT_DICTIONARY).Nodup := by
  decide

/-- Witness for C2 at concrete inputs. -/
theorem C2_ledger_uniqueness_witness :
    ((runEv [Ev.agg "d" (some [[("hex", JVal.s "A"), ("seen", JVal.n 10)]])]
        (initState "d")).ICAO_FLIGHT_DICTIONARY).Nodup ∧
    ((procRec [("hex", JVal.s "A"), ("seen", JVal.n 10)]
        { initState "d" with ICAO_FLIGHT_DICTIONARY := ["d", "A"] }).1).ICAO_FLIGHT_DICTIONARY
      = ["d", "A"] :=
  ⟨(C2_ledger_uniqueness_amended "d"
      [Ev.agg "d" (some [[("hex", JVal.s "A"), ("seen", JVal.n 10)]])] (by decide)).1,
   (C2_ledger_uniqueness_amended "d" [] (by simp)).2
     [("hex", JVal.s "A"), ("seen", JVal.n 10)]
     { initState "d" with ICAO_FLIGHT_DICTIONARY := ["d", "A"] } "A" (by decide) (by decide)⟩

/-- C3 (code bug): parsing a successfully fetched snapshot can raise.  A
record with a `seen_pos` field but no `seen` field passes the substring
test `'seen' in data` on the serialised record and then raises
`KeyError('seen')` at `parsed['seen']`, aborting the snapshot; a record
with a non-numeric `seen` raises `TypeError` at `numSec < 60` instead of
being treated as absent. -/
theorem C3_parsing_raises :
    (parseFlightData "d" (some [[("hex", JVal.s "ABC"), ("seen_pos", JVal.n 10)]])
        (initState "d")).2 = Except.error (PyErr.keyError "seen") ∧
    (parseFlightData "d" (some [[("seen", JVal.s "soon")]])
        (initState "d")).2 = Except.error PyErr.typeError :=
  ⟨rfl, rfl⟩

/-- C4 (amended): after every aggregation tick that completes without an
exception, `flightDailyTotal` equals the full ledger length, i.e. the
distinct-identifier count plus the leading date slot.  (As literally
stated — ledger size minus the date slot — the claim fails, see
`C4_daily_total_counterexample`.) -/
theorem C4_daily_total_amended (now : String) (recs : List AircraftRec) (s : SysState)
    (sp : List String) (hok : (aggBody now recs s).2 = Except.ok sp) :
    ((aggBody now recs s).1).flightDailyTotal =
      (((aggBody now recs s).1).ICAO_FLIGHT_DICTIONARY.length : Int) := by
  simp only [aggBody] at hok ⊢
  rcases hp : procList recs (clearFlightMetrics s) [] with ⟨s1, sp1, e⟩
  cases e with
  | some e =>
    rw [hp] at hok
    exact Except.noConfusion hok
  | none => exact finalize_daily now s1

/-- Counterexample to C4 as stated: one tick with one aircraft leaves a
ledger of length 2 (date slot plus one identifier) and sets
`flightDailyTotal` to 2, not to the length minus the date slot. -/
theorem C4_daily_total_counterexample :
    ¬ (((parseFlightData "d" (some [[("hex", JVal.s "A"), ("seen", JVal.n 10)]])
          (initState "d")).1).flightDailyTotal =
        ((((parseFlightData "d" (some [[("hex", JVal.s "A"), ("seen", JVal.n 10)]])
          (initState "d")).1).ICAO_FLIGHT_DICTIONARY.length : Int) - 1)) := by
  decide

/-- Witness for C4 at a concrete input. -/
theorem C4_daily_total_witness :
    ((aggBody "d" [] (initState "d")).1).flightDailyTotal =
      (((aggBody "d" [] (initState "d")).1).ICAO_FLIGHT_DICTIONARY.length : Int) :=
  C4_daily_total_amended "d" [] (initState "d") [] rfl

/-- C5: the cutover check is idempotent, and a check whose date equals the
stored date is a no-op on the whole state (metrics, ledger, dirty flag and
archive log). -/
theorem C5_cutover_idempotent (now : String) (s : SysState) :
    checkDailyCutover now (checkDailyCutover now s) = checkDailyCutover now s ∧
    (s.todaysDate = now → checkDailyCutover now s = s) := by
  constructor
  · by_cases hd : now = s.todaysDate
    · rw [checkDailyCutover_same now s hd, checkDailyCutover_same now s hd]
    · have ht := (checkDailyCutover_roll now s hd).2.2.2.2.1
      exact checkDailyCutover_same now _ ht.symm
  · intro h
    exact checkDailyCutover_same now s h.symm

/-- Witness for C5 at concrete inputs: a date-changing double cutover and a
same-date no-op. -/
theorem C5_cutover_idempotent_witness :
    checkDailyCutover "e" (checkDailyCutover "e" (initState "d"))
      = checkDailyCutover "e" (initState "d") ∧
    checkDailyCutover "d" (initState "d") = initState "d" :=
  ⟨(C5_cutover_idempotent "e" (initState "d")).1,
   (C5_cutover_idempotent "d" (initState "d")).2 rfl⟩

/-- Counterexample to C6 as stated: at a state with daily max 3 and daily
max-position 5, the line the rollover appends differs from the line in the
claimed field order (the source writes max-position before max and
all-time max-position before all-time max). -/
theorem C6_archive_order_counterexample :
    (checkDailyCutover "e" { initState "d" with flightMax := 3, flightMaxPos := 5 }).statsLog
      ≠ [claimedArchiveLine { initState "d" with flightMax := 3, flightMaxPos := 5 }] := by
  decide

/-- C6 (amended): on a date change the cutover appends exactly one
comma-separated line with the outgoing day's values in the order date,
daily total, best-day total, best-day date, daily max-POSITION, daily max,
all-time max-POSITION, all-time max, min temperature, max temperature
(temperatures via the 2-decimal format), then zeroes the daily counters
and best-day total, sets the temperature sentinels, advances the stored
date, re-dates the cleared ledger, sets the dirty flag, and leaves the
all-time maxima unchanged.  (Only the position/value order of the four
maxima fields differs from the claim as stated.) -/
theorem C6_cutover_amended (now : String) (s : SysState) (h : now ≠ s.todaysDate) :
    (checkDailyCutover now s).statsLog = s.statsLog ++
      [s.todaysDate ++ ", " ++ toString s.flightDailyTotal ++ ", " ++
       toString s.flightBestDayTotal ++ ", " ++ s.flightBestDayDate ++ ", " ++
       toString s.flightMaxPos ++ ", " ++ toString s.flightMax ++ ", " ++
       toString s.flightMaxPosAllTime ++ ", " ++ toString s.flightMaxAllTime ++ ", " ++
       fmt2 s.lowestRoomTemp ++ ", " ++ fmt2 s.highestRoomTemp ++ "\n"] ∧
    (checkDailyCutover now s).flightDailyTotal = 0 ∧
    (checkDailyCutover now s).flightMax = 0 ∧
    (checkDailyCutover now s).flightMaxPos = 0 ∧
    (checkDailyCutover now s).flightBestDayTotal = 0 ∧
    (checkDailyCutover now s).lowestRoomTemp = 1000 ∧
    (checkDailyCutover now s).highestRoomTemp = -27315/100 ∧
    (checkDailyCutover now s).todaysDate = now ∧
    (checkDailyCutover now s).ICAO_FLIGHT_DICTIONARY = [now] ∧
    (checkDailyCutover now s).DIRTY_DATA_FLAG = true ∧
    (checkDailyCutover now s).flightMaxAllTime = s.flightMaxAllTime ∧
    (checkDailyCutover now s).flightMaxPosAllTime = s.flightMaxPosAllTime := by
  obtain ⟨r1, r2, r3, r4, r5, r6, r7, r8, r9, r10, r11, r12⟩ :=
    checkDailyCutover_roll now s h
  exact ⟨by rw [r12]; rfl, r7, r1, r2, r8, r9, r10, r5, r6, r11, r3, r4⟩

/-- Witness for C6 at a concrete input. -/
theorem C6_cutover_amended_witness :
    (checkDailyCutover "e" (initState "d")).statsLog = (initState "d").statsLog ++
      [(initState "d").todaysDate ++ ", " ++
       toString (initState "d").flightDailyTotal ++ ", " ++
       toString (initState "d").flightBestDayTotal ++ ", " ++
       (initState "d").flightBestDayDate ++ ", " ++
       toString (initState "d").flightMaxPos ++ ", " ++
       toString (initState "d").flightMax ++ ", " ++
       toString (initState "d").flightMaxPosAllTime ++ ", " ++
       toString (initState "d").flightMaxAllTime ++ ", " ++
       fmt2 (initState "d").lowestRoomTemp ++ ", " ++
       fmt2 (initState "d").highestRoomTemp ++ "\n"] ∧
    (checkDailyCutover "e" (initState "d")).flightDailyTotal = 0 ∧
    (checkDailyCutover "e" (initState "d")).flightMax = 0 ∧
    (checkDailyCutover "e" (initState "d")).flightMaxPos = 0 ∧
    (checkDailyCutover "e" (initState "d")).flightBestDayTotal = 0 ∧
    (checkDailyCutover "e" (initState "d")).lowestRoomTemp = 1000 ∧
    (checkDailyCutover "e" (initState "d")).highestRoomTemp = -27315/100 ∧
    (checkDailyCutover "e" (initState "d")).todaysDate = "e" ∧
    (checkDailyCutover "e" (initState "d")).ICAO_FLIGHT_DICTIONARY = ["e"] ∧
    (checkDailyCutover "e" (initState "d")).DIRTY_DATA_FLAG = true ∧
    (checkDailyCutover "e" (initState "d")).flightMaxAllTime
      = (initState "d").flightMaxAllTime ∧
    (checkDailyCutover "e" (initState "d")).flightMaxPosAllTime
      = (initState "d").flightMaxPosAllTime :=
  C6_cutover_amended "e" (initState "d") (by decide)

/-- C7 (amended): a key missing from the persisted metrics file keeps its
built-in default; a malformed (undecodable) file yields exactly the
default snapshot without raising; and a key present in the file — known or
unknown — is copied into the snapshot (so unknown keys are NOT ignored but
inserted, see `C7_unknown_key_counterexample`; known fields are unaffected
by them). -/
theorem C7_load_amended (now : String) (kvs : List (String × PVal)) (k : String)
    (v : PVal) (ifile : Option (Except Unit (List String)))
    (hmiss : ∀ p ∈ kvs, p.1 ≠ k) :
    dictGet (loadData now (some (Except.ok kvs)) ifile).1 k
      = dictGet (defaultMetricsDict now) k ∧
    (loadData now (some (Except.error ())) ifile).1 = defaultMetricsDict now ∧
    dictGet (loadData now (some (Except.ok ((k, v) :: kvs))) ifile).1 k = some v := by
  refine ⟨?_, rfl, ?_⟩
  · show dictGet (loadICAOPart now
        (kvs.foldl (fun d p => dictSet d p.1 p.2) (defaultMetricsDict now)) ifile).1 k = _
    rw [loadICAOPart_fst]
    exact dictGet_foldl_absent kvs _ k hmiss
  · show dictGet (loadICAOPart now
        (((k, v) :: kvs).foldl (fun d p => dictSet d p.1 p.2) (defaultMetricsDict now))
        ifile).1 k = _
    rw [loadICAOPart_fst]
    simp only [List.foldl_cons]
    rw [dictGet_foldl_absent kvs _ k hmiss, dictGet_dictSet_self]

/-- Counterexample to C7's "unknown keys are ignored": loading a file whose
only key is the unknown `"bogus"` inserts that key into the snapshot
dictionary, where the default snapshot has no such key. -/
theorem C7_unknown_key_counterexample :
    dictGet (loadData "d" (some (Except.ok [("bogus", PVal.i 42)])) none).1 "bogus"
      = some (PVal.i 42) ∧
    dictGet (defaultMetricsDict "d") "bogus" = none :=
  ⟨rfl, rfl⟩

/-- Witness for C7 at concrete inputs. -/
theorem C7_load_witness :
    dictGet (loadData "d" (some (Except.ok [("flightMax", PVal.i 7)])) none).1 "flightCount"
      = dictGet (defaultMetricsDict "d") "flightCount" ∧
    (loadData "d" (some (Except.error ())) none).1 = defaultMetricsDict "d" ∧
    dictGet (loadData "d"
        (some (Except.ok [("flightCount", PVal.i 9), ("flightMax", PVal.i 7)])) none).1
      "flightCount" = some (PVal.i 9) :=
  C7_load_amended "d" [("flightMax", PVal.i 7)] "flightCount" (PVal.i 9) none (by decide)

/-- C8: on a failed fetch the tick mutates nothing beyond the preceding
cutover check — the state is exactly `checkDailyCutover now s` — and the
returned value `[""]` differs from the `[]` returned by a successful fetch
that observed no traffic. -/
theorem C8_fetch_failure_no_mutation (now : String) (s : SysState) :
    (parseFlightData now none s).1 = checkDailyCutover now s ∧
    (parseFlightData now none s).2 = Except.ok [""] ∧
    (parseFlightData now (some []) s).2 = Except.ok ([] : List String) ∧
    ([""] : List String) ≠ [] :=
  ⟨rfl, rfl, rfl, by decide⟩

/-- C9: the three-aircraft scenario — identifiers A, B, C with ages 10s,
70s, 20s, squawk 7700 on B with flight RESCUE1 — yields a recently-seen
count of 2, the alert list `["7700: RESCUE1"]`, and a ledger containing A,
B and C. -/
theorem C9_scenario :
    (parseFlightData "d" (some
        [[("hex", JVal.s "A"), ("seen", JVal.n 10)],
         [("hex", JVal.s "B"), ("seen", JVal.n 70), ("squawk", JVal.s "7700"),
          ("flight", JVal.s "RESCUE1")],
         [("hex", JVal.s "C"), ("seen", JVal.n 20)]]) (initState "d")).2
      = Except.ok ["7700: RESCUE1"] ∧
    ((parseFlightData "d" (some
        [[("hex", JVal.s "A"), ("seen", JVal.n 10)],
         [("hex", JVal.s "B"), ("seen", JVal.n 70), ("squawk", JVal.s "7700"),
          ("flight", JVal.s "RESCUE1")],
         [("hex", JVal.s "C"), ("seen", JVal.n 20)]]) (initState "d")).1).flightSeen = 2 ∧
    "A" ∈ ((parseFlightData "d" (some
        [[("hex", JVal.s "A"), ("seen", JVal.n 10)],
         [("hex", JVal.s "B"), ("seen", JVal.n 70), ("squawk", JVal.s "7700"),
          ("flight", JVal.s "RESCUE1")],
         [("hex", JVal.s "C"), ("seen", JVal.n 20)]]) (initState "d")).1).ICAO_FLIGHT_DICTIONARY ∧
    "B" ∈ ((parseFlightData "d" (some
        [[("hex", JVal.s "A"), ("seen", JVal.n 10)],
         [("hex", JVal.s "B"), ("seen", JVal.n 70), ("squawk", JVal.s "7700"),
          ("flight", JVal.s "RESCUE1")],
         [("hex", JVal.s "C"), ("seen", JVal.n 20)]]) (initState "d")).1).ICAO_FLIGHT_DICTIONARY ∧
    "C" ∈ ((parseFlightData "d" (some
        [[("hex", JVal.s "A"), ("seen", JVal.n 10)],
         [("hex", JVal.s "B"), ("seen", JVal.n 70), ("squawk", JVal.s "7700"),
          ("flight", JVal.s "RESCUE1")],
         [("hex", JVal.s "C"), ("seen", JVal.n 20)]]) (initState "d")).1).ICAO_FLIGHT_DICTIONARY :=
  ⟨rfl, rfl, by decide, by decide, by decide⟩

/-- C10: a failed fetch returns the one-element list `[""]`, which is
non-empty, while a successful tick none of whose records contributes a
special-squawk alert returns `[]`; the caller's emergency-display branch
(`loop` and `showEmergencyAircraft`) tests only non-emptiness of this
list, so a fetch failure takes the emergency branch. -/
theorem C10_error_alert_signal (now : String) (s : SysState) (recs : List AircraftRec)
    (sp : List String)
    (hns : ∀ r ∈ recs, phaseSquawk r = Except.ok [])
    (hok : (parseFlightData now (some recs) s).2 = Except.ok sp) :
    (parseFlightData now none s).2 = Except.ok [""] ∧
    emergencyBranchTaken [""] = true ∧
    sp = [] ∧
    emergencyBranchTaken sp = false ∧
    ∀ l : List String, (emergencyBranchTaken l = true ↔ l ≠ []) := by
  have hsp : sp = [] := by
    simp only [parseFlightData, aggBody] at hok
    rcases hp : procList recs (clearFlightMetrics (checkDailyCutover now s)) []
      with ⟨s1, sp1, e⟩
    rw [hp] at hok
    cases e with
    | some e => exact Except.noConfusion hok
    | none =>
      have h2 := procList_no_adds recs (clearFlightMetrics (checkDailyCutover now s)) [] hns
      rw [hp] at h2
      simp only [Except.ok.injEq] at hok
      rw [← hok]
      exact h2
  refine ⟨rfl, by decide, hsp, ?_, ?_⟩
  · rw [hsp]; decide
  · intro l
    cases l <;> simp [emergencyBranchTaken]

/-- Witness for C10 at a concrete input: an empty successful feed. -/
theorem C10_error_alert_signal_witness :
    (parseFlightData "d" none (initState "d")).2 = Except.ok [""] ∧
    emergencyBranchTaken [""] = true ∧
    ([] : List String) = [] ∧
    emergencyBranchTaken ([] : List String) = false :=
  ⟨(C10_error_alert_signal "d" (initState "d") [] [] (by simp) rfl).1,
   (C10_error_alert_signal "d" (initState "d") [] [] (by simp) rfl).2.1,
   (C10_error_alert_signal "d" (initState "d") [] [] (by simp) rfl).2.2.1,
   (C10_error_alert_signal "d" (initState "d") [] [] (by simp) rfl).2.2.2.1⟩
